import Mathlib

/-!
Shallow embedding of the diffrant_native backend (src/src-tauri/src):
the NeXus reader (`readers/nxs.rs`), the format dispatch (`readers/mod.rs`),
the open-file command (`commands.rs`) and the HTTP handlers (`server.rs`).

Floating-point values are modelled as rationals (`Rat`): every claim under
study concerns control flow and which exact arithmetic operation is applied,
not rounding.  HDF5 files are modelled by the slice of their structure the
code reads: the `entry/data/data` image dataset (shape, element dtype, raw
element values), the detector / detectorSpecific / beam groups as association
lists of named scalar datasets, and the `units` string attributes with their
three possible encodings.  Errors are strings, as in the source, which uses
`anyhow` string errors throughout.
-/

deriving instance DecidableEq for Except

namespace Diffrant

/-- `str::to_lowercase`, restricted to its ASCII action: every string the
code lowercases is compared against ASCII literals, and non-ASCII characters
are left unchanged by `Char.toLower` just as they fall through every match
arm in the source.  (Structurally recursive so concrete instances
evaluate.) -/
def asciiLower (s : String) : String := ⟨s.data.map Char.toLower⟩

/-- Split a character list on a separator character; always returns at least
one (possibly empty) chunk, like `str::split`. -/
def splitOnChar (sep : Char) : List Char → List (List Char)
  | [] => [[]]
  | c :: rest =>
    let r := splitOnChar sep rest
    if c = sep then [] :: r
    else
      match r with
      | [] => [[c]]
      | h :: t => (c :: h) :: t

/-- Element dtype of the image dataset, as discriminated by
`dataset.dtype()?.is::<T>()` in `read_nxs_frame`.  `other` carries the
`Debug` rendering of the HDF5 type descriptor (`dtype_desc` in the source),
which only the unsupported-dtype error message uses. -/
inductive Dtype
  | u16
  | i16
  | i32
  | u32
  | other (desc : String)
  deriving DecidableEq, Repr

/-- Whether `read_nxs_frame` has a conversion arm for this dtype. -/
def Dtype.supported : Dtype → Bool
  | .other _ => false
  | _ => true

/-- `entry/data/data`: shape, element dtype, and the raw stored element
values, frame-major (one flat row-major list per frame).  Signed dtypes may
store negative values; unsigned dtypes store nonnegative values. -/
structure ImageDataset where
  shape : List Nat
  dtype : Dtype
  frames : List (List Int)
  deriving DecidableEq, Repr

/-- A string attribute with its possible encodings.  `read_dataset_attr_string`
tries variable-length Unicode, then variable-length ASCII, then fixed-length
(64-byte) ASCII, and uses the first that decodes. -/
structure StrAttr where
  varlenUnicode : Option String
  varlenAscii : Option String
  fixedAscii64 : Option String
  deriving DecidableEq, Repr

/-- How a metadata scalar dataset is stored on disk; determines which of the
typed reads (`read_scalar::<f64>`, `read_scalar::<f32>`, `read_1d::<f64>`,
`read_1d::<f32>`) succeed on it.  The carried rational is the stored value
(f32 to f64 widening is exact). -/
inductive FloatStorage
  | scalarF64 (v : Rat)
  | scalarF32 (v : Rat)
  | arr1F64 (v : Rat)
  | arr1F32 (v : Rat)
  | otherStorage
  deriving DecidableEq, Repr

/-- A named metadata dataset: its storage and its attributes. -/
structure MetaDataset where
  storage : FloatStorage
  attrs : List (String × StrAttr)
  deriving DecidableEq, Repr

/-- An HDF5 group, reduced to the association list of the scalar datasets the
code reads from it. -/
structure Group where
  datasets : List (String × MetaDataset)
  deriving DecidableEq, Repr

/-- The slice of an NXmx file the reader touches.  `detectorSpecific` is the
`detectorSpecific` subgroup of the detector group, lifted here to a sibling
field.  A `none` group or dataset is one absent from the file. -/
structure NxsFile where
  image : Option ImageDataset
  detector : Option Group
  detectorSpecific : Option Group
  beam : Option Group
  deriving DecidableEq, Repr

/-- The filesystem: which paths open as HDF5 files, and their contents.
`none` models a missing or unreadable file. -/
def FileSystem := String → Option NxsFile

/-- `NxsReader` stores only the path; every operation reopens the file. -/
structure NxsReader where
  path : String
  deriving DecidableEq, Repr

/-- `ImageMetadata` as declared in `readers/mod.rs` (field names are the
serde-serialized names). -/
structure ImageMetadata where
  panel_distance : Rat
  beam_center : Rat × Rat
  pixel_size : Rat
  panel_size_fast_slow : Nat × Nat
  image_depth : Nat
  trusted_range_max : Rat
  beam_energy_kev : Option Rat
  deriving DecidableEq, Repr

/-! ### Integer casts

Rust `as` casts between integer types, on a two's-complement model:
an `Int` carries the mathematical value of the source integer. -/

/-- Rust `as u16`: the low 16 bits of the two's-complement pattern. -/
def toU16 (v : Int) : Nat := (v % 65536).toNat

/-- Rust `as i16`: the low 16 bits, reinterpreted as a signed 16-bit value. -/
def toI16 (v : Int) : Int :=
  if v % 65536 < 32768 then v % 65536 else v % 65536 - 65536

/-- Rust `as i32`: the low 32 bits, reinterpreted as a signed 32-bit value. -/
def toI32 (v : Int) : Int :=
  if v % 4294967296 < 2147483648 then v % 4294967296
  else v % 4294967296 - 4294967296

/-! ### Frame reading (`read_nxs_frame`) -/

/-- The `Frame index .. out of range` message produced by `read_nxs_frame`. -/
def outOfRangeMsg (i n : Nat) : String :=
  "Frame index " ++ toString i ++ " out of range (dataset has " ++
    toString n ++ " frames)"

/-- The `Expected 3D dataset` message shared by `frame_count`,
`read_nxs_frame` and `read_nxs_metadata`. -/
def wrongRankMsg (rank : Nat) : String :=
  "Expected 3D dataset, got " ++ toString rank ++ "D"

/-- The `Unsupported pixel dtype` message of `read_nxs_frame`. -/
def unsupportedDtypeMsg (desc : String) : String :=
  "Unsupported pixel dtype: " ++ desc

/-- The per-dtype pixel conversion of `read_nxs_frame`: the typed
`read_slice_2d` followed by the element-wise cast chain.  The source tests
the dtype in the order u16, i32, u32, i16, else; the arms are disjoint. -/
def convertFrame : Dtype → List Int → Except String (List Nat)
  | .u16, vs => .ok (vs.map Int.toNat)
  | .i32, vs => .ok (vs.map fun v => toU16 (toI16 v))
  | .u32, vs => .ok (vs.map fun v => toU16 (toI16 (toI32 v)))
  | .i16, vs => .ok (vs.map toU16)
  | .other desc, _ => .error (unsupportedDtypeMsg desc)

/-- `read_nxs_frame` on an already-opened file: check the dataset exists, has
rank 3, the index is in range, then read and convert one frame.  Returns
`(pixels, width, height)`. -/
def readFrameFile (file : NxsFile) (frame_idx : Nat) :
    Except String (List Nat × Nat × Nat) :=
  match file.image with
  | none => .error "Failed to open dataset entry/data/data"
  | some ds =>
    match ds.shape with
    | [n, height, width] =>
      if frame_idx ≥ n then .error (outOfRangeMsg frame_idx n)
      else
        match convertFrame ds.dtype (ds.frames.getD frame_idx []) with
        | .error e => .error e
        | .ok pixels => .ok (pixels, width, height)
    | s => .error (wrongRankMsg s.length)

/-- `read_nxs_frame(path, frame_idx)`: open the file at `path`, then read. -/
def read_nxs_frame (fs : FileSystem) (path : String) (frame_idx : Nat) :
    Except String (List Nat × Nat × Nat) :=
  match fs path with
  | none => .error ("Failed to open " ++ path)
  | some file => readFrameFile file frame_idx

/-- `NxsReader::frame_count`: reopen the file, require a rank-3 dataset,
return its outermost dimension. -/
def frame_count (fs : FileSystem) (r : NxsReader) : Except String Nat :=
  match fs r.path with
  | none => .error ("Failed to open " ++ r.path)
  | some file =>
    match file.image with
    | none => .error "Failed to open dataset entry/data/data"
    | some ds =>
      match ds.shape with
      | [n, _, _] => .ok n
      | s => .error (wrongRankMsg s.length)

/-! ### Metadata extraction (`read_nxs_metadata` and helpers) -/

/-- `read_dataset_attr_string`: read a string attribute, trying
variable-length Unicode, variable-length ASCII, then fixed-length ASCII. -/
def read_dataset_attr_string (ds : MetaDataset) (attr_name : String) :
    Option String :=
  (ds.attrs.lookup attr_name).bind fun a =>
    (a.varlenUnicode.orElse fun _ =>
      a.varlenAscii.orElse fun _ => a.fixedAscii64)

/-- The scalar-read chain of `read_scalar_f64`:
`read_scalar::<f64>` then `read_scalar::<f32>`.  Succeeds only on scalar
storage. -/
def readScalarChain : FloatStorage → Option Rat
  | .scalarF64 v => some v
  | .scalarF32 v => some v
  | _ => none

/-- The extended read chain used only by the distance field:
`read_scalar::<f64>`, `read_scalar::<f32>`, `read_1d::<f64>` (first
element), `read_1d::<f32>` (first element). -/
def readScalarOrArr1Chain : FloatStorage → Option Rat
  | .scalarF64 v => some v
  | .scalarF32 v => some v
  | .arr1F64 v => some v
  | .arr1F32 v => some v
  | .otherStorage => none

/-- `read_scalar_f64(group, name)`: look the dataset up, then read it as
scalar f64 with a fallback to scalar f32. -/
def read_scalar_f64 (g : Group) (name : String) : Option Rat :=
  (g.datasets.lookup name).bind fun ds => readScalarChain ds.storage

/-- Distance unit conversion: the `units` attribute (default `"m"`),
lowercased; `mm` is the identity, `cm` multiplies by 10, anything else
(including `m`) by 1000. -/
def distanceToMm (units? : Option String) (raw : Rat) : Rat :=
  let u := asciiLower (units?.getD "m")
  if u = "mm" then raw
  else if u = "cm" then raw * 10
  else raw * 1000

/-- One candidate of the distance fallback chain: the body of the `find_map`
closure in `read_nxs_metadata`.  `none` when the dataset is absent or none
of the four reads succeeds. -/
def readDistanceCandidate (det : Group) (name : String) : Option Rat := do
  let ds ← det.datasets.lookup name
  let raw ← readScalarOrArr1Chain ds.storage
  some (distanceToMm (read_dataset_attr_string ds "units") raw)

/-- The candidate dataset names for the distance field, in order. -/
def distanceCandidates : List String := ["distance", "detector_distance"]

/-- The distance field: first candidate that reads, default `0.0`. -/
def panelDistanceOf (det : Group) : Rat :=
  (distanceCandidates.findSome? (readDistanceCandidate det)).getD 0

/-- The pixel-size field: `x_pixel_size` in metres, times 1000; default
`0.075` mm. -/
def pixelSizeOf (det : Group) : Rat :=
  ((read_scalar_f64 det "x_pixel_size").map fun v => v * 1000).getD (75 / 1000)

/-- Wavelength (angstrom) normalization for `incident_wavelength`: `units`
attribute defaulting to `"angstrom"`, lowercased; angstrom spellings are the
identity, `nm` multiplies by 10, `m` by `1e10`, anything else is the
identity. -/
def wavelengthToAngstrom (units? : Option String) (raw : Rat) : Rat :=
  let u := asciiLower (units?.getD "angstrom")
  if u = "angstrom" ∨ u = "angstroms" ∨ u = "a" ∨ u = "Å" then raw
  else if u = "nm" then raw * 10
  else if u = "m" then raw * 10000000000
  else raw

/-- `wavelength_to_energy_kev`: `E (keV) = hc / lambda` with
`hc = 12.398419843 keV·Å`. -/
def wavelength_to_energy_kev (wavelength_angstrom : Rat) : Rat :=
  12.398419843 / wavelength_angstrom

/-- The beam-energy field: absent when the beam group is absent; otherwise
prefer `incident_energy` (eV, divided by 1000), falling back to
`incident_wavelength` read as scalar f64 then scalar f32, normalized to
angstrom and converted.  Absent when neither dataset reads. -/
def beamEnergyOf (beam? : Option Group) : Option Rat :=
  beam?.bind fun beam =>
    match read_scalar_f64 beam "incident_energy" with
    | some ev => some (ev / 1000)
    | none => do
      let ds ← beam.datasets.lookup "incident_wavelength"
      let raw ← readScalarChain ds.storage
      some (wavelength_to_energy_kev
        (wavelengthToAngstrom (read_dataset_attr_string ds "units") raw))

/-- The trusted-range-max field: `countrate_correction_count_cutoff` under
`detectorSpecific`, else `saturation_value` under the detector group, else
`u16::MAX - 1 = 65534`. -/
def trustedRangeMaxOf (detectorSpecific? : Option Group) (det : Group) : Rat :=
  ((detectorSpecific?.bind fun g =>
      read_scalar_f64 g "countrate_correction_count_cutoff").orElse fun _ =>
    read_scalar_f64 det "saturation_value").getD 65534

/-- `read_nxs_metadata` on an already-opened file: require the rank-3 image
dataset and the detector group, then resolve every field through its
fallback chain. -/
def readMetadataFile (file : NxsFile) : Except String ImageMetadata :=
  match file.image with
  | none => .error "Failed to open dataset entry/data/data"
  | some ds =>
    match ds.shape with
    | [_, height, width] =>
      match file.detector with
      | none => .error "Failed to open group entry/instrument/detector"
      | some det =>
        .ok
          { panel_distance := panelDistanceOf det
            beam_center :=
              ((read_scalar_f64 det "beam_center_x").getD ((width : Rat) / 2),
               (read_scalar_f64 det "beam_center_y").getD ((height : Rat) / 2))
            pixel_size := pixelSizeOf det
            panel_size_fast_slow := (width, height)
            image_depth := 16
            trusted_range_max := trustedRangeMaxOf file.detectorSpecific det
            beam_energy_kev := beamEnergyOf file.beam }
    | s => .error (wrongRankMsg s.length)

/-- `read_nxs_metadata(path)`: open the file at `path`, then decode. -/
def read_nxs_metadata (fs : FileSystem) (path : String) :
    Except String ImageMetadata :=
  match fs path with
  | none => .error ("Failed to open " ++ path)
  | some file => readMetadataFile file

/-- `NxsReader::metadata`. -/
def NxsReader.metadata (fs : FileSystem) (r : NxsReader) :
    Except String ImageMetadata :=
  read_nxs_metadata fs r.path

/-- `NxsReader::read_frame`. -/
def NxsReader.read_frame (fs : FileSystem) (r : NxsReader) (frame : Nat) :
    Except String (List Nat × Nat × Nat) :=
  read_nxs_frame fs r.path frame

/-- `NxsReader::open`: a quick open-and-close to surface errors early; on
success the reader holds only the path. -/
def NxsReader.open (fs : FileSystem) (path : String) :
    Except String NxsReader :=
  match fs path with
  | none => .error ("Cannot open " ++ path)
  | some _ => .ok { path := path }

/-! ### Format dispatch (`readers/mod.rs`) -/

/-- The final path component, as `Path::file_name` sees it: the last
non-empty `/`-separated component (trailing separators ignored); empty when
the path has no file name. -/
def fileName (path : String) : String :=
  ⟨((splitOnChar '/' path.data).filter fun c => c ≠ []).getLastD []⟩

/-- `Path::extension` on a file name: `none` when there is no `.`, when the
only `.` is leading, or for the relative components `.` and `..`; otherwise
the portion after the final `.`. -/
def extensionOf (f : String) : Option String :=
  if f = "." ∨ f = ".." then none
  else
    match (splitOnChar '.' f.data).map List.asString with
    | [] => none
    | [_] => none
    | ["", _] => none
    | parts => some (parts.getLastD "")

/-- The extensions `readers::open` accepts. -/
def supportedExts : List String := ["nxs", "h5", "hdf5", "nx5"]

/-- The error message for an unsupported extension. -/
def unsupportedExtMsg (ext : String) : String :=
  "Unsupported file extension '." ++ ext ++ "'. Supported: nxs, h5, hdf5, nx5"

/-- `readers::open`: lowercase the extension (empty when absent) and
dispatch; only the NXS reader exists, so the boxed `dyn Reader` is an
`NxsReader`.  The unsupported arm bails before touching the filesystem. -/
def readersOpen (fs : FileSystem) (path : String) : Except String NxsReader :=
  let ext := asciiLower ((extensionOf (fileName path)).getD "")
  if supportedExts.contains ext then NxsReader.open fs path
  else .error (unsupportedExtMsg ext)

/-! ### The open-file command (`commands.rs`) -/

/-- Result record of the `open_file` command. -/
structure OpenFileResult where
  frame_count : Nat
  deriving DecidableEq, Repr

/-- The registry slot: `SharedReader = Arc<Mutex<Option<Box<dyn Reader>>>>`,
reduced to its contents under the lock. -/
def Registry := Option NxsReader

/-- `open_file`: open the reader and take its frame count inside the blocking
task; only on success store the reader into the registry slot.  Returns the
new registry contents together with the command's result. -/
def open_file (fs : FileSystem) (reg : Registry) (path : String) :
    Registry × Except String OpenFileResult :=
  match readersOpen fs path with
  | .error e => (reg, .error ("failed to open file: " ++ e))
  | .ok r =>
    match frame_count fs r with
    | .error e => (reg, .error ("failed to open file: " ++ e))
    | .ok n => (some r, .ok { frame_count := n })

/-! ### Serialization (serde derive on `ImageMetadata`) -/

/-- JSON values, as far as this API produces them. -/
inductive Json
  | num (v : Rat)
  | str (s : String)
  | arr (elems : List Json)
  | obj (fields : List (String × Json))

/-- The field names of a JSON object. -/
def Json.keys : Json → List String
  | .obj fields => fields.map Prod.fst
  | _ => []

/-- serde serialization of `ImageMetadata`: fields in declaration order
under their declared names; `beam_energy_kev` has
`skip_serializing_if = "Option::is_none"` and is omitted when absent. -/
def serializeMetadata (m : ImageMetadata) : Json :=
  .obj
    ([("panel_distance", .num m.panel_distance),
      ("beam_center", .arr [.num m.beam_center.1, .num m.beam_center.2]),
      ("pixel_size", .num m.pixel_size),
      ("panel_size_fast_slow",
        .arr [.num m.panel_size_fast_slow.1, .num m.panel_size_fast_slow.2]),
      ("image_depth", .num m.image_depth),
      ("trusted_range_max", .num m.trusted_range_max)] ++
      match m.beam_energy_kev with
      | some e => [("beam_energy_kev", Json.num e)]
      | none => [])

/-! ### The HTTP handlers (`server.rs`) -/

/-- An HTTP response: status code, content type when one is set explicitly,
and body. -/
inductive Body
  | json (j : Json)
  | bytes (bs : List Nat)
  | text (s : String)

/-- Status and body of a response. -/
structure Response where
  status : Nat
  body : Body

/-- The blocking closure of `get_metadata`: an empty slot is reported as the
string error `"No file open"`, otherwise the reader's `metadata` runs and
its error is stringified. -/
def metadataTask (fs : FileSystem) (reg : Registry) :
    Except String ImageMetadata :=
  match reg with
  | none => .error "No file open"
  | some r => r.metadata fs

/-- `get_metadata`: await the blocking task and map its result.  An inner
`Ok` is serialized as JSON with status 200; an inner `Err` — including the
empty-slot `"No file open"` — takes the 500 branch.  The source's
`(404, "No file open")` branch matches only a `JoinError` (a panicked
blocking task) and is unreachable here, where no computation panics. -/
def get_metadata (fs : FileSystem) (reg : Registry) : Response :=
  match metadataTask fs reg with
  | .ok meta => { status := 200, body := .json (serializeMetadata meta) }
  | .error e => { status := 500, body := .text e }

/-- Little-endian bytes of a 16-bit value (`u16::to_le_bytes`). -/
def u16ToLeBytes (v : Nat) : List Nat := [v % 256, v / 256 % 256]

/-- The blocking closure of `get_image`. -/
def imageTask (fs : FileSystem) (reg : Registry) (frame : Nat) :
    Except String (List Nat × Nat × Nat) :=
  match reg with
  | none => .error "No file open"
  | some r => r.read_frame fs frame

/-- `get_image`: an inner `Ok` is flattened to little-endian u16 bytes with
status 200; an inner `Err` — including the empty-slot `"No file open"` —
takes the 500 branch.  The source's `JoinError` branch (500 with empty body)
is unreachable here. -/
def get_image (fs : FileSystem) (reg : Registry) (frame : Nat) : Response :=
  match imageTask fs reg frame with
  | .ok (pixels, _, _) =>
    { status := 200, body := .bytes (pixels.flatMap u16ToLeBytes) }
  | .error e => { status := 500, body := .text e }

/-! ### Concrete inputs used to evaluate the development -/

/-- A variable-length-Unicode string attribute. -/
def uniAttr (s : String) : StrAttr :=
  { varlenUnicode := some s, varlenAscii := none, fixedAscii64 := none }

/-- A 2-frame 2×3 uint16 stack. -/
def u16Image : ImageDataset :=
  { shape := [2, 2, 3], dtype := .u16,
    frames := [[1, 2, 3, 4, 5, 6], [7, 8, 9, 10, 11, 12]] }

/-- A well-formed file with a uint16 stack and an empty detector group. -/
def u16File : NxsFile :=
  { image := some u16Image, detector := some { datasets := [] },
    detectorSpecific := none, beam := none }

/-- A detector group whose `x_pixel_size` is stored as a one-element 1-D
f64 array holding `0.1` (metres). -/
def arrPixelGroup : Group :=
  { datasets :=
      [("x_pixel_size", { storage := .arr1F64 (1 / 10), attrs := [] })] }

/-- A file with `arrPixelGroup` as its detector group. -/
def arrPixelFile : NxsFile :=
  { image := some u16Image, detector := some arrPixelGroup,
    detectorSpecific := none, beam := none }

/-- A file whose beam group stores `incident_energy = 0.0` eV. -/
def zeroEnergyFile : NxsFile :=
  { image := some u16Image, detector := some { datasets := [] },
    detectorSpecific := none,
    beam := some
      { datasets :=
          [("incident_energy", { storage := .scalarF64 0, attrs := [] })] } }

/-- A file whose beam group stores `incident_energy = 12000.0` eV. -/
def posEnergyFile : NxsFile :=
  { image := some u16Image, detector := some { datasets := [] },
    detectorSpecific := none,
    beam := some
      { datasets :=
          [("incident_energy",
            { storage := .scalarF64 12000, attrs := [] })] } }

/-- A file whose primary dataset is 2-D (wrong rank). -/
def rank2File : NxsFile :=
  { image := some { shape := [2, 3], dtype := .u16, frames := [] },
    detector := some { datasets := [] },
    detectorSpecific := none, beam := none }

/-- A filesystem with one good `.h5` file, one wrong-rank `.h5` file, and a
text file; everything else is unreadable. -/
def sampleFs : FileSystem := fun p =>
  if p = "data.h5" then some u16File
  else if p = "flat.h5" then some rank2File
  else if p = "zero.h5" then some zeroEnergyFile
  else if p = "pos.h5" then some posEnergyFile
  else none

/-- The metadata record `pos.h5` decodes to: default geometry on a 3×2
detector plus `beam_energy_kev = 12000 / 1000`. -/
def posEnergyMeta : ImageMetadata :=
  { panel_distance := 0, beam_center := (3 / 2, 1), pixel_size := 75 / 1000,
    panel_size_fast_slow := (3, 2), image_depth := 16,
    trusted_range_max := 65534, beam_energy_kev := some 12 }

/-- Two's-complement bit patterns, used to state the pixel-conversion
claim independently of the cast chain: the 16-bit pattern of an int16
value, and the 32-bit pattern of an int32 value. -/
def pattern16 (v : Int) : Nat :=
  if 0 ≤ v then v.toNat else (v + 65536).toNat

/-- The 32-bit two's-complement pattern of an int32 value. -/
def pattern32 (v : Int) : Nat :=
  if 0 ≤ v then v.toNat else (v + 4294967296).toNat

/-- Every beam quantity the decoder can read from this beam group is
positive: any readable `incident_energy` is positive, and any readable
`incident_wavelength` normalizes to a positive angstrom value. -/
def PositiveBeamValues (beam : Group) : Prop :=
  (∀ ev, read_scalar_f64 beam "incident_energy" = some ev → 0 < ev) ∧
  (∀ ds raw, beam.datasets.lookup "incident_wavelength" = some ds →
    readScalarChain ds.storage = some raw →
    0 < wavelengthToAngstrom (read_dataset_attr_string ds "units") raw)

/-! ## Theorems -/

/-- On int16 values, `as u16` is the 16-bit two's-complement pattern. -/
theorem toU16_eq_pattern16 (v : Int) (h1 : -32768 ≤ v) (h2 : v < 32768) :
    toU16 v = pattern16 v := by
  unfold toU16 pattern16
  split_ifs <;> omega

/-- On int32 values, `as i16 as u16` is the low 16 bits of the 32-bit
two's-complement pattern. -/
theorem i32_chain_eq (v : Int) (h1 : -2147483648 ≤ v) (h2 : v < 2147483648) :
    toU16 (toI16 v) = pattern32 v % 65536 := by
  unfold toU16 toI16 pattern32
  split_ifs <;> omega

/-- On uint32 values, `as i32 as i16 as u16` is the value mod `2^16`. -/
theorem u32_chain_eq (v : Int) (h1 : 0 ≤ v) (h2 : v < 4294967296) :
    toU16 (toI16 (toI32 v)) = v.toNat % 65536 := by
  unfold toU16 toI16 toI32
  split_ifs <;> omega

/-- C1: while the registry slot is empty, both the metadata and the frame
handler answer with HTTP status 500 and body `"No file open"`: the empty
slot is reported through the handlers' stringified-error branch, which maps
to 500, not to the claimed 404 (the 404 branch of `get_metadata` matches
only a panicked blocking task). -/
theorem c1_empty_slot_responds_500 (fs : FileSystem) (frame : Nat) :
    get_metadata fs none = { status := 500, body := .text "No file open" } ∧
    get_image fs none frame =
      { status := 500, body := .text "No file open" } :=
  ⟨rfl, rfl⟩

/-- C2: the pixel conversion of `read_nxs_frame` per source dtype: uint16 is
the identity on the stored values; int16 becomes its 16-bit two's-complement
bit pattern; int32 becomes the low 16 bits of its 32-bit pattern (truncation
to int16 then bit reinterpretation, not saturation); uint32 becomes its
value mod 2^16 (the same two-step narrowing); any other dtype fails with the
`Unsupported pixel dtype` error naming the detected descriptor. -/
theorem c2_pixel_conversion (vs : List Int) (desc : String) :
    convertFrame .u16 vs = .ok (vs.map Int.toNat) ∧
    ((∀ v ∈ vs, -32768 ≤ v ∧ v < 32768) →
      convertFrame .i16 vs = .ok (vs.map pattern16)) ∧
    ((∀ v ∈ vs, -2147483648 ≤ v ∧ v < 2147483648) →
      convertFrame .i32 vs = .ok (vs.map fun v => pattern32 v % 65536)) ∧
    ((∀ v ∈ vs, 0 ≤ v ∧ v < 4294967296) →
      convertFrame .u32 vs = .ok (vs.map fun v => v.toNat % 65536)) ∧
    convertFrame (.other desc) vs = .error (unsupportedDtypeMsg desc) := by
  refine ⟨rfl, ?_, ?_, ?_, rfl⟩ <;> intro h <;>
      simp only [convertFrame, Except.ok.injEq] <;>
      refine List.map_congr_left fun v hv => ?_
  · exact toU16_eq_pattern16 v (h v hv).1 (h v hv).2
  · exact i32_chain_eq v (h v hv).1 (h v hv).2
  · exact u32_chain_eq v (h v hv).1 (h v hv).2

/-- C2 witness: the spec's own test vector, an int32 value `0x1_FFFF`
(131071), decodes through int16 truncation to `0xFFFF` (65535), not to a
saturated value. -/
theorem c2_pixel_conversion_witness :
    (∀ v ∈ [(131071 : Int)], -2147483648 ≤ v ∧ v < 2147483648) ∧
    convertFrame .i32 [131071] =
      .ok ([(131071 : Int)].map fun v => pattern32 v % 65536) ∧
    convertFrame .i32 [131071] = .ok [65535] :=
  ⟨by decide, (c2_pixel_conversion [131071] "X").2.2.1 (by decide), by decide⟩

/-- A supported dtype converts by mapping some per-pixel function. -/
theorem convertFrame_supported (d : Dtype) (hd : d.supported = true)
    (vs : List Int) : ∃ f, convertFrame d vs = .ok (vs.map f) := by
  cases d with
  | other desc => simp [Dtype.supported] at hd
  | u16 => exact ⟨_, rfl⟩
  | i16 => exact ⟨_, rfl⟩
  | i32 => exact ⟨_, rfl⟩
  | u32 => exact ⟨_, rfl⟩

/-- C3: on a reader whose primary dataset is 3-D with `n` frames,
`frame_count` returns `n`; `read_frame(i)` fails with the out-of-range
error for every `i ≥ n`; and for every `i < n` it succeeds with a
width×height pixel buffer whenever the dtype is supported (and the stored
stack is well-formed: `n` frames of `height*width` elements). -/
theorem c3_frame_bounds (fs : FileSystem) (path : String) (file : NxsFile)
    (ds : ImageDataset) (n h w : Nat)
    (hfs : fs path = some file) (himg : file.image = some ds)
    (hshape : ds.shape = [n, h, w]) :
    frame_count fs { path := path } = .ok n ∧
    (∀ i, n ≤ i → read_nxs_frame fs path i = .error (outOfRangeMsg i n)) ∧
    (∀ i, i < n → ds.dtype.supported = true → ds.frames.length = n →
      (∀ fr ∈ ds.frames, fr.length = h * w) →
      ∃ pix, read_nxs_frame fs path i = .ok (pix, w, h) ∧
        pix.length = w * h) := by
  refine ⟨by simp [frame_count, hfs, himg, hshape], ?_, ?_⟩
  · intro i hi
    simp [read_nxs_frame, hfs, readFrameFile, himg, hshape, hi]
  · intro i hi hsupp hlen hfr
    have hil : i < ds.frames.length := by rw [hlen]; exact hi
    have hsome : ds.frames[i]? = some ds.frames[i] :=
      List.getElem?_eq_getElem hil
    have hflen : (ds.frames[i]?.getD []).length = h * w := by
      rw [hsome]
      exact hfr _ (List.getElem_mem hil)
    have hni : ¬ i ≥ n := by omega
    obtain ⟨f, hcf⟩ :=
      convertFrame_supported ds.dtype hsupp (ds.frames[i]?.getD [])
    refine ⟨(ds.frames[i]?.getD []).map f, ?_, ?_⟩
    · simp [read_nxs_frame, hfs, readFrameFile, himg, hshape, hni, hcf]
    · simp [hflen, Nat.mul_comm]

/-- C3 witness: on the sample 2-frame 2×3 uint16 file, `frame_count` is 2,
frame 5 is out of range, and frame 0 yields a 6-pixel buffer. -/
theorem c3_frame_bounds_witness :
    frame_count sampleFs { path := "data.h5" } = .ok 2 ∧
    read_nxs_frame sampleFs "data.h5" 5 = .error (outOfRangeMsg 5 2) ∧
    ∃ pix, read_nxs_frame sampleFs "data.h5" 0 = .ok (pix, 3, 2) ∧
      pix.length = 3 * 2 := by
  obtain ⟨h1, h2, h3⟩ :=
    c3_frame_bounds sampleFs "data.h5" u16File u16Image 2 2 3
      (by decide) (by decide) (by decide)
  exact ⟨h1, h2 5 (by decide),
    h3 0 (by decide) (by decide) (by decide) (by decide)⟩

/-- C4 counterexample: `x_pixel_size` is present as a one-element 1-D f64
array holding `0.1` m, yet the decoded pixel size is the hard-coded default
`0.075` mm, not the `0.1 * 1000 = 100` mm the claimed read sequence (scalar
f64, scalar f32, then 1-element 1-D array, for every field) would give:
only the distance field has the 1-D array fallback. -/
theorem c4_counterexample :
    arrPixelGroup.datasets.lookup "x_pixel_size" =
      some { storage := .arr1F64 (1 / 10), attrs := [] } ∧
    (readMetadataFile arrPixelFile).map (fun m => m.pixel_size) =
      .ok (75 / 1000) ∧
    (75 / 1000 : Rat) ≠ 1 / 10 * 1000 := by
  refine ⟨rfl, ?_, by norm_num⟩
  simp [readMetadataFile, arrPixelFile, arrPixelGroup, u16Image, pixelSizeOf,
    read_scalar_f64, readScalarChain, List.lookup, Except.map]

/-- C4 amended: each present candidate is read as scalar f64 then scalar
f32; only the distance candidates are additionally read as a one-element
1-D array (f64 then f32); a candidate readable by none of its chain's reads
is skipped.  The beam-centre candidates go through `read_scalar_f64` and
land in the decoded record when readable.  When no candidate succeeds,
hard-coded defaults apply to distance (0.0), pixel size (0.075), beam
centre (width/2, height/2) and trusted-range max (65534), and the
beam-energy field is omitted; none of these ever errors. -/
theorem c4_amended_fallback_reads (v : Rat) (g : Group) (name : String)
    (ds : MetaDataset) :
    (readScalarOrArr1Chain (.scalarF64 v) = some v ∧
      readScalarOrArr1Chain (.scalarF32 v) = some v ∧
      readScalarOrArr1Chain (.arr1F64 v) = some v ∧
      readScalarOrArr1Chain (.arr1F32 v) = some v ∧
      readScalarOrArr1Chain .otherStorage = none) ∧
    (readScalarChain (.scalarF64 v) = some v ∧
      readScalarChain (.scalarF32 v) = some v ∧
      readScalarChain (.arr1F64 v) = none ∧
      readScalarChain (.arr1F32 v) = none ∧
      readScalarChain .otherStorage = none) ∧
    (g.datasets.lookup name = some ds →
      read_scalar_f64 g name = readScalarChain ds.storage) ∧
    (g.datasets.lookup name = none → read_scalar_f64 g name = none) ∧
    (g.datasets.lookup name = some ds →
      readDistanceCandidate g name =
        (readScalarOrArr1Chain ds.storage).map
          (distanceToMm (read_dataset_attr_string ds "units"))) ∧
    (∀ (dsi : ImageDataset) (det : Group) (dsp beam : Option Group)
        (n h w : Nat) (cx cy : Rat),
      dsi.shape = [n, h, w] →
      read_scalar_f64 det "beam_center_x" = some cx →
      read_scalar_f64 det "beam_center_y" = some cy →
      ∃ m, readMetadataFile
          { image := some dsi, detector := some det,
            detectorSpecific := dsp, beam := beam } = .ok m ∧
        m.beam_center = (cx, cy)) ∧
    (∀ (dsi : ImageDataset) (det : Group) (dsp beam : Option Group)
        (n h w : Nat),
      dsi.shape = [n, h, w] →
      det.datasets.lookup "beam_center_x" = none →
      det.datasets.lookup "beam_center_y" = none →
      ∃ m, readMetadataFile
          { image := some dsi, detector := some det,
            detectorSpecific := dsp, beam := beam } = .ok m ∧
        m.beam_center = ((w : Rat) / 2, (h : Rat) / 2)) ∧
    (panelDistanceOf { datasets := [] } = 0 ∧
      pixelSizeOf { datasets := [] } = 75 / 1000 ∧
      trustedRangeMaxOf none { datasets := [] } = 65534 ∧
      beamEnergyOf none = none ∧
      beamEnergyOf (some { datasets := [] }) = none) := by
  refine ⟨⟨rfl, rfl, rfl, rfl, rfl⟩, ⟨rfl, rfl, rfl, rfl, rfl⟩,
    ?_, ?_, ?_, ?_, ?_, ?_, ?_, ?_, ?_, ?_⟩
  · intro h; simp [read_scalar_f64, h]
  · intro h; simp [read_scalar_f64, h]
  · intro h
    cases hr : readScalarOrArr1Chain ds.storage <;>
      simp [readDistanceCandidate, h, hr]
  · intro dsi det dsp beam n h w cx cy hs hx hy
    refine ⟨{
        panel_distance := panelDistanceOf det,
        beam_center :=
          ((read_scalar_f64 det "beam_center_x").getD ((w : Rat) / 2),
            (read_scalar_f64 det "beam_center_y").getD ((h : Rat) / 2)),
        pixel_size := pixelSizeOf det,
        panel_size_fast_slow := (w, h),
        image_depth := 16,
        trusted_range_max := trustedRangeMaxOf dsp det,
        beam_energy_kev := beamEnergyOf beam }, ?_, ?_⟩
    · simp [readMetadataFile, hs]
    · simp [hx, hy]
  · intro dsi det dsp beam n h w hs hx hy
    refine ⟨{
        panel_distance := panelDistanceOf det,
        beam_center :=
          ((read_scalar_f64 det "beam_center_x").getD ((w : Rat) / 2),
            (read_scalar_f64 det "beam_center_y").getD ((h : Rat) / 2)),
        pixel_size := pixelSizeOf det,
        panel_size_fast_slow := (w, h),
        image_depth := 16,
        trusted_range_max := trustedRangeMaxOf dsp det,
        beam_energy_kev := beamEnergyOf beam }, ?_, ?_⟩
    · simp [readMetadataFile, hs]
    · simp [read_scalar_f64, hx, hy]
  · simp [panelDistanceOf, distanceCandidates, readDistanceCandidate,
      List.findSome?, List.lookup]
  · simp [pixelSizeOf, read_scalar_f64, List.lookup]
  · simp [trustedRangeMaxOf, read_scalar_f64, List.lookup]
  · rfl
  · simp [beamEnergyOf, read_scalar_f64, List.lookup]

/-- C4 witness: the chains evaluated on the one-element-array storage via
the theorem's lookup hypotheses, and the beam-centre default on the sample
file's empty detector group (3×2 detector → centre (3/2, 1)). -/
theorem c4_amended_fallback_reads_witness :
    read_scalar_f64 arrPixelGroup "x_pixel_size" =
      readScalarChain (.arr1F64 (1 / 10)) ∧
    readDistanceCandidate arrPixelGroup "x_pixel_size" =
      (readScalarOrArr1Chain (.arr1F64 (1 / 10))).map
        (distanceToMm
          (read_dataset_attr_string
            { storage := .arr1F64 (1 / 10), attrs := [] } "units")) ∧
    ∃ m, readMetadataFile u16File = .ok m ∧
      m.beam_center = ((3 : Rat) / 2, (2 : Rat) / 2) :=
  ⟨(c4_amended_fallback_reads 0 arrPixelGroup "x_pixel_size"
      { storage := .arr1F64 (1 / 10), attrs := [] }).2.2.1 rfl,
    (c4_amended_fallback_reads 0 arrPixelGroup "x_pixel_size"
      { storage := .arr1F64 (1 / 10), attrs := [] }).2.2.2.2.1 rfl,
    (c4_amended_fallback_reads 0 arrPixelGroup "x_pixel_size"
      { storage := .arr1F64 (1 / 10), attrs := [] }).2.2.2.2.2.2.1
      u16Image { datasets := [] } none none 2 2 3 rfl rfl rfl⟩

/-- C5: distance resolution tries `distance` then `detector_distance`,
stopping at the first candidate that reads; the value converts to
millimetres by its `units` attribute (`mm` ×1, `cm` ×10, absent or any
other unit including `m` ×1000); and the field is 0.0 when neither
candidate reads (in particular when neither dataset exists). -/
theorem c5_distance_resolution (det : Group) (u : String) :
    (∀ v, readDistanceCandidate det "distance" = some v →
      panelDistanceOf det = v) ∧
    (readDistanceCandidate det "distance" = none →
      ∀ v, readDistanceCandidate det "detector_distance" = some v →
        panelDistanceOf det = v) ∧
    (readDistanceCandidate det "distance" = none →
      readDistanceCandidate det "detector_distance" = none →
      panelDistanceOf det = 0) ∧
    (∀ raw : Rat, distanceToMm (some "mm") raw = raw ∧
      distanceToMm (some "cm") raw = raw * 10 ∧
      distanceToMm (some "m") raw = raw * 1000 ∧
      distanceToMm none raw = raw * 1000) ∧
    (∀ raw : Rat, asciiLower u ≠ "mm" → asciiLower u ≠ "cm" →
      distanceToMm (some u) raw = raw * 1000) := by
  refine ⟨?_, ?_, ?_, ?_, ?_⟩
  · intro v hv
    simp [panelDistanceOf, distanceCandidates, List.findSome?, hv]
  · intro h0 v hv
    simp [panelDistanceOf, distanceCandidates, List.findSome?, h0, hv]
  · intro h0 h1
    simp [panelDistanceOf, distanceCandidates, List.findSome?, h0, h1]
  · intro raw
    refine ⟨?_, ?_, ?_, ?_⟩ <;>
      simp [distanceToMm, show asciiLower "mm" = "mm" from by decide,
        show asciiLower "cm" = "cm" from by decide,
        show asciiLower "m" = "m" from by decide]
  · intro raw h1 h2
    simp [distanceToMm, h1, h2]

/-- C5 witness: a `distance` dataset of 1.0 with units `"cm"` resolves to
10 mm, ahead of any `detector_distance` candidate; unit conversion checked
for `mm`, `cm`, `m`, an absent attribute, and an unknown unit. -/
theorem c5_distance_resolution_witness :
    panelDistanceOf
      { datasets :=
          [("distance",
            { storage := .scalarF64 1, attrs := [("units", uniAttr "cm")] }),
           ("detector_distance",
            { storage := .scalarF64 7, attrs := [] })] } = 1 * 10 ∧
    distanceToMm (some "mm") 1 = 1 ∧
    distanceToMm (some "cm") 1 = 1 * 10 ∧
    distanceToMm (some "m") 1 = 1 * 1000 ∧
    distanceToMm none 1 = 1 * 1000 ∧
    distanceToMm (some "furlong") 1 = 1 * 1000 := by
  have hc := c5_distance_resolution
    { datasets :=
        [("distance",
          { storage := .scalarF64 1, attrs := [("units", uniAttr "cm")] }),
         ("detector_distance",
          { storage := .scalarF64 7, attrs := [] })] } "furlong"
  refine ⟨hc.1 (1 * 10) ?_, (hc.2.2.2.1 1).1, (hc.2.2.2.1 1).2.1,
    (hc.2.2.2.1 1).2.2.1, (hc.2.2.2.1 1).2.2.2,
    hc.2.2.2.2 1 (by decide) (by decide)⟩
  simp [readDistanceCandidate, List.lookup, readScalarOrArr1Chain,
    read_dataset_attr_string, uniAttr, distanceToMm,
    show asciiLower "cm" = "cm" from by decide]

/-- C6: beam energy prefers `incident_energy` (eV) divided by 1000; else
reads `incident_wavelength` as scalar f64 then f32, normalizes its units to
angstrom (angstrom unchanged, `nm` ×10, `m` ×1e10, absent treated as
angstrom) and converts via `E_keV = 12.398419843 / lambda`; the field is
omitted when the beam group or both datasets are absent. -/
theorem c6_beam_energy (beam : Group) (ds : MetaDataset) :
    beamEnergyOf none = none ∧
    (∀ ev, read_scalar_f64 beam "incident_energy" = some ev →
      beamEnergyOf (some beam) = some (ev / 1000)) ∧
    (∀ raw, read_scalar_f64 beam "incident_energy" = none →
      beam.datasets.lookup "incident_wavelength" = some ds →
      readScalarChain ds.storage = some raw →
      beamEnergyOf (some beam) =
        some (wavelength_to_energy_kev
          (wavelengthToAngstrom (read_dataset_attr_string ds "units") raw))) ∧
    (read_scalar_f64 beam "incident_energy" = none →
      beam.datasets.lookup "incident_wavelength" = none →
      beamEnergyOf (some beam) = none) ∧
    (∀ raw : Rat, wavelengthToAngstrom none raw = raw ∧
      wavelengthToAngstrom (some "angstrom") raw = raw ∧
      wavelengthToAngstrom (some "nm") raw = raw * 10 ∧
      wavelengthToAngstrom (some "m") raw = raw * 10000000000) ∧
    (∀ wl : Rat, wavelength_to_energy_kev wl = 12.398419843 / wl) ∧
    wavelength_to_energy_kev 12.398419843 = 1 := by
  refine ⟨rfl, ?_, ?_, ?_, ?_, fun wl => rfl, ?_⟩
  · intro ev h
    simp [beamEnergyOf, h]
  · intro raw h0 h1 h2
    simp [beamEnergyOf, h0, h1, h2]
  · intro h0 h1
    simp [beamEnergyOf, h0, h1]
  · intro raw
    refine ⟨?_, ?_, ?_, ?_⟩ <;>
      simp [wavelengthToAngstrom,
        show asciiLower "angstrom" = "angstrom" from by decide,
        show asciiLower "nm" = "nm" from by decide,
        show asciiLower "m" = "m" from by decide]
  · norm_num [wavelength_to_energy_kev]

/-- C6 witness: a beam group with only `incident_wavelength = 12.398419843`
(no units attribute) yields exactly 1 keV; one with
`incident_energy = 12000` eV yields 12 keV. -/
theorem c6_beam_energy_witness :
    beamEnergyOf
      (some { datasets :=
        [("incident_wavelength",
          { storage := .scalarF64 12.398419843, attrs := [] })] }) =
      some (wavelength_to_energy_kev
        (wavelengthToAngstrom none 12.398419843)) ∧
    wavelength_to_energy_kev 12.398419843 = 1 ∧
    beamEnergyOf
      (some { datasets :=
        [("incident_energy",
          { storage := .scalarF64 12000, attrs := [] })] }) =
      some (12000 / 1000) := by
  refine ⟨?_, ?_, ?_⟩
  · exact (c6_beam_energy
      { datasets :=
          [("incident_wavelength",
            { storage := .scalarF64 12.398419843, attrs := [] })] }
      { storage := .scalarF64 12.398419843, attrs := [] }).2.2.1
      12.398419843 rfl rfl rfl
  · exact (c6_beam_energy { datasets := [] }
      { storage := .otherStorage, attrs := [] }).2.2.2.2.2.2
  · exact (c6_beam_energy
      { datasets :=
          [("incident_energy",
            { storage := .scalarF64 12000, attrs := [] })] }
      { storage := .otherStorage, attrs := [] }).2.1 12000 rfl

/-- C7 counterexample: a file storing `incident_energy = 0.0` decodes
successfully to a metadata record whose `beam_energy_kev` is `some 0` —
present but zero, and zero is not positive — so the invariant "absent or
positive, never zero" does not hold for arbitrary stored values. -/
theorem c7_counterexample :
    (readMetadataFile zeroEnergyFile).map (fun m => m.beam_energy_kev) =
      .ok (some 0) ∧
    ¬ (0 : Rat) > 0 := by
  refine ⟨?_, by norm_num⟩
  simp [readMetadataFile, zeroEnergyFile, u16Image, beamEnergyOf,
    read_scalar_f64, readScalarChain, List.lookup, Except.map]

/-- C7 amended: for every successfully decoded metadata record,
`beam_energy_kev` is either absent or carried over from the stored beam
quantities by `/1000` or `hc/lambda`; it is positive whenever every
readable beam quantity is positive (a zero or negative stored
`incident_energy`, however, propagates to a non-positive energy).  NaN and
infinity are outside this rational model; the rank of division by a zero
wavelength is likewise a float artefact not modelled here. -/
theorem c7_amended_energy_positive (file : NxsFile) (m : ImageMetadata)
    (hok : readMetadataFile file = .ok m)
    (hpos : ∀ beam, file.beam = some beam → PositiveBeamValues beam) :
    m.beam_energy_kev = none ∨
      ∃ e, m.beam_energy_kev = some e ∧ 0 < e := by
  have hbe : m.beam_energy_kev = beamEnergyOf file.beam := by
    unfold readMetadataFile at hok
    split at hok
    · exact absurd hok (by simp)
    · split at hok
      · split at hok
        · exact absurd hok (by simp)
        · rw [← Except.ok.inj hok]
      · exact absurd hok (by simp)
  rw [hbe]
  cases hbeam : file.beam with
  | none => exact Or.inl rfl
  | some beam =>
    obtain ⟨hev, hwl⟩ := hpos beam hbeam
    cases he : read_scalar_f64 beam "incident_energy" with
    | some ev =>
      exact Or.inr ⟨ev / 1000, by simp [beamEnergyOf, he],
        div_pos (hev ev he) (by norm_num)⟩
    | none =>
      cases hl : beam.datasets.lookup "incident_wavelength" with
      | none => exact Or.inl (by simp [beamEnergyOf, he, hl])
      | some ds =>
        cases hr : readScalarChain ds.storage with
        | none => exact Or.inl (by simp [beamEnergyOf, he, hl, hr])
        | some raw =>
          refine Or.inr
            ⟨wavelength_to_energy_kev
              (wavelengthToAngstrom (read_dataset_attr_string ds "units") raw),
             by simp [beamEnergyOf, he, hl, hr], ?_⟩
          unfold wavelength_to_energy_kev
          exact div_pos (by norm_num) (hwl ds raw hl hr)

/-- C7 amended witness: the 12 keV file decodes with a positive energy. -/
theorem c7_amended_energy_positive_witness :
    posEnergyMeta.beam_energy_kev = none ∨
      ∃ e, posEnergyMeta.beam_energy_kev = some e ∧ 0 < e := by
  refine c7_amended_energy_positive posEnergyFile posEnergyMeta ?_ ?_
  · simp [readMetadataFile, posEnergyFile, posEnergyMeta, u16Image,
      panelDistanceOf, distanceCandidates, readDistanceCandidate,
      pixelSizeOf, read_scalar_f64, readScalarChain, beamEnergyOf,
      trustedRangeMaxOf, List.findSome?, List.lookup]
    norm_num
  · intro beam hb
    rw [show posEnergyFile.beam = some
        { datasets :=
            [("incident_energy",
              { storage := .scalarF64 12000, attrs := [] })] } from rfl]
      at hb
    cases hb
    constructor
    · intro ev h
      have : ev = 12000 := by
        simpa [read_scalar_f64, List.lookup, readScalarChain] using h.symm
      rw [this]; norm_num
    · intro ds raw hl hr
      simp [List.lookup] at hl

/-- `readers::open` rejects an unsupported extension with the message
naming it, regardless of the filesystem. -/
theorem readersOpen_unsupported (fs : FileSystem) (path : String)
    (hext : supportedExts.contains
      (asciiLower ((extensionOf (fileName path)).getD "")) = false) :
    readersOpen fs path =
      .error (unsupportedExtMsg
        (asciiLower ((extensionOf (fileName path)).getD ""))) := by
  simp only [readersOpen]
  rw [if_neg]
  rw [hext]
  simp

/-- On a supported extension, `readers::open` is `NxsReader::open`. -/
theorem readersOpen_supported (fs : FileSystem) (path : String)
    (hext : supportedExts.contains
      (asciiLower ((extensionOf (fileName path)).getD "")) = true) :
    readersOpen fs path = NxsReader.open fs path := by
  simp only [readersOpen]
  rw [if_pos hext]

/-- A successful `readers::open` hands back a reader holding the path. -/
theorem readersOpen_ok_path (fs : FileSystem) (path : String) (r : NxsReader)
    (h : readersOpen fs path = .ok r) : r.path = path := by
  simp only [readersOpen] at h
  split at h
  · unfold NxsReader.open at h
    split at h
    · exact absurd h (by simp)
    · rw [← Except.ok.inj h]
  · exact absurd h (by simp)

/-- C8: whenever `open_file` returns an error — in particular for an
unsupported extension, an unreadable file, a missing primary dataset, or a
primary dataset of rank other than 3 — the registry slot is returned
unchanged, so a previously-open reader stays active. -/
theorem c8_failed_open_preserves_registry (fs : FileSystem) (reg : Registry)
    (path : String) :
    (∀ e, (open_file fs reg path).2 = .error e →
      (open_file fs reg path).1 = reg) ∧
    (supportedExts.contains
        (asciiLower ((extensionOf (fileName path)).getD "")) = false →
      ∃ e, (open_file fs reg path).2 = .error e) ∧
    (fs path = none → ∃ e, (open_file fs reg path).2 = .error e) ∧
    (∀ file, fs path = some file → file.image = none →
      ∃ e, (open_file fs reg path).2 = .error e) ∧
    (∀ file ds, fs path = some file → file.image = some ds →
      ds.shape.length ≠ 3 → ∃ e, (open_file fs reg path).2 = .error e) := by
  refine ⟨?_, ?_, ?_, ?_, ?_⟩
  · intro e he
    unfold open_file at he ⊢
    split at he
    · rename_i e0 heq
      simp [heq]
    · rename_i r heq
      split at he
      · rename_i e0 heq2
        simp [heq, heq2]
      · simp at he
  · intro hext
    unfold open_file
    rw [readersOpen_unsupported fs path hext]
    exact ⟨_, rfl⟩
  · intro hfs
    unfold open_file
    by_cases hc : supportedExts.contains
        (asciiLower ((extensionOf (fileName path)).getD "")) = true
    · rw [readersOpen_supported fs path hc]
      unfold NxsReader.open
      rw [hfs]
      exact ⟨_, rfl⟩
    · rw [readersOpen_unsupported fs path (Bool.of_not_eq_true hc)]
      exact ⟨_, rfl⟩
  · intro file hfs himg
    unfold open_file
    split
    · exact ⟨_, rfl⟩
    · rename_i r heq
      have hp := readersOpen_ok_path fs path r heq
      have hfc : frame_count fs r =
          .error "Failed to open dataset entry/data/data" := by
        simp [frame_count, hp, hfs, himg]
      rw [hfc]
      exact ⟨_, rfl⟩
  · intro file ds hfs himg hlen
    unfold open_file
    split
    · exact ⟨_, rfl⟩
    · rename_i r heq
      have hp := readersOpen_ok_path fs path r heq
      have hfc : ∃ e0, frame_count fs r = .error e0 := by
        cases hq : frame_count fs r with
        | error e0 => exact ⟨e0, rfl⟩
        | ok n =>
          exfalso
          simp [frame_count, hp, hfs, himg] at hq
          split at hq
          · rename_i n' h' w' heqs
            exact hlen (by rw [heqs]; rfl)
          · simp at hq
      obtain ⟨e0, hfc⟩ := hfc
      rw [hfc]
      exact ⟨_, rfl⟩

/-- C8 witness: opening `notes.txt` (unsupported extension) fails and keeps
the previously-open `data.h5` reader active; opening the rank-2 `flat.h5`
also fails. -/
theorem c8_failed_open_preserves_registry_witness :
    (∃ e, (open_file sampleFs (some { path := "data.h5" })
      "notes.txt").2 = .error e) ∧
    (open_file sampleFs (some { path := "data.h5" }) "notes.txt").1 =
      some { path := "data.h5" } ∧
    (∃ e, (open_file sampleFs (some { path := "data.h5" })
      "flat.h5").2 = .error e) := by
  obtain ⟨e, he⟩ :=
    (c8_failed_open_preserves_registry sampleFs
      (some { path := "data.h5" }) "notes.txt").2.1 (by decide)
  refine ⟨⟨e, he⟩,
    (c8_failed_open_preserves_registry sampleFs
      (some { path := "data.h5" }) "notes.txt").1 e he,
    (c8_failed_open_preserves_registry sampleFs
      (some { path := "data.h5" }) "flat.h5").2.2.2.2 rank2File
      { shape := [2, 3], dtype := .u16, frames := [] }
      (by decide) (by decide) (by decide)⟩

/-- C9 counterexample: the serialized field names are those declared in
`readers/mod.rs` — `panel_distance`, `pixel_size`, `image_depth` — not the
claimed `panel_distance_mm`, `pixel_size_mm`, `image_depth_bits`. -/
theorem c9_counterexample :
    (serializeMetadata posEnergyMeta).keys ≠
      ["panel_distance_mm", "beam_center", "pixel_size_mm",
       "panel_size_fast_slow", "image_depth_bits", "trusted_range_max",
       "beam_energy_kev"] := by
  decide

/-- C9 amended: the metadata endpoint serializes the record with the field
names of the struct declaration (`panel_distance`, `beam_center`,
`pixel_size`, `panel_size_fast_slow`, `image_depth`, `trusted_range_max`,
`beam_energy_kev`), in declaration order, and the optional
`beam_energy_kev` is omitted from the record, not serialized as null, when
absent. -/
theorem c9_amended_field_names (m : ImageMetadata) (fs : FileSystem)
    (reg : Registry) :
    (serializeMetadata m).keys =
      ["panel_distance", "beam_center", "pixel_size",
       "panel_size_fast_slow", "image_depth", "trusted_range_max"] ++
        (if m.beam_energy_kev.isSome then ["beam_energy_kev"] else []) ∧
    (metadataTask fs reg = .ok m →
      get_metadata fs reg =
        { status := 200, body := .json (serializeMetadata m) }) := by
  constructor
  · cases hbe : m.beam_energy_kev <;>
      simp [serializeMetadata, Json.keys, hbe]
  · intro h
    simp [get_metadata, h]

/-- C9 witness: the endpoint response for the 12 keV sample file. -/
theorem c9_amended_field_names_witness :
    get_metadata sampleFs (some { path := "pos.h5" }) =
      { status := 200, body := .json (serializeMetadata posEnergyMeta) } := by
  refine (c9_amended_field_names posEnergyMeta sampleFs
    (some { path := "pos.h5" })).2 ?_
  show metadataTask sampleFs (some { path := "pos.h5" }) = .ok posEnergyMeta
  simp [metadataTask, NxsReader.metadata, read_nxs_metadata, sampleFs,
    readMetadataFile, posEnergyFile, posEnergyMeta, u16Image,
    panelDistanceOf, distanceCandidates, readDistanceCandidate, pixelSizeOf,
    read_scalar_f64, readScalarChain, beamEnergyOf, trustedRangeMaxOf,
    List.findSome?, List.lookup]
  norm_num

/-- C10: `readers::open` dispatches purely on the lowercased extension:
when it is not one of nxs/h5/hdf5/nx5 the call fails with the message
naming that extension, independently of the filesystem (the file is never
touched); and a success is only possible when the extension is in the
supported set. -/
theorem c10_extension_dispatch (fs fs' : FileSystem) (path : String)
    (r : NxsReader) :
    (supportedExts.contains
        (asciiLower ((extensionOf (fileName path)).getD "")) = false →
      readersOpen fs path =
        .error (unsupportedExtMsg
          (asciiLower ((extensionOf (fileName path)).getD "")))) ∧
    (readersOpen fs path = .ok r →
      supportedExts.contains
        (asciiLower ((extensionOf (fileName path)).getD "")) = true) ∧
    (supportedExts.contains
        (asciiLower ((extensionOf (fileName path)).getD "")) = false →
      readersOpen fs path = readersOpen fs' path) := by
  refine ⟨readersOpen_unsupported fs path, ?_, ?_⟩
  · intro h
    by_cases hc : supportedExts.contains
        (asciiLower ((extensionOf (fileName path)).getD "")) = true
    · exact hc
    · rw [readersOpen_unsupported fs path (Bool.of_not_eq_true hc)] at h
      exact absurd h (by simp)
  · intro h
    rw [readersOpen_unsupported fs path h, readersOpen_unsupported fs' path h]

/-- C10 witness: `notes.txt` is rejected with a message naming `.txt`
without consulting the filesystem, while `data.h5` dispatches to the NXS
reader and opens. -/
theorem c10_extension_dispatch_witness :
    supportedExts.contains
      (asciiLower ((extensionOf (fileName "notes.txt")).getD "")) = false ∧
    readersOpen sampleFs "notes.txt" =
      .error (unsupportedExtMsg
        (asciiLower ((extensionOf (fileName "notes.txt")).getD ""))) ∧
    unsupportedExtMsg
      (asciiLower ((extensionOf (fileName "notes.txt")).getD "")) =
      "Unsupported file extension '.txt'. Supported: nxs, h5, hdf5, nx5" ∧
    readersOpen sampleFs "data.h5" = .ok { path := "data.h5" } ∧
    supportedExts.contains
      (asciiLower ((extensionOf (fileName "data.h5")).getD "")) = true := by
  refine ⟨by decide, ?_, by decide, by decide, ?_⟩
  · exact (c10_extension_dispatch sampleFs sampleFs "notes.txt"
      { path := "" }).1 (by decide)
  · exact (c10_extension_dispatch sampleFs sampleFs "data.h5"
      { path := "data.h5" }).2.1 (by decide)

end Diffrant
